import Mathlib

/-!
Verification development for the pydisc client library.

This file gives a shallow embedding, in Lean, of the rate-limiting engine
(`pydisc/ratelimits.py`, `pydisc/http.py`) and of the gateway connection
lifecycle (`pydisc/websockets/poller.py`, `pydisc/client.py`,
`pydisc/errors.py`), and proves or refutes the stated behavioural
properties of those components.

Modelling conventions:
* Python float time values are modelled as `Int` (all properties of
  interest use integral instants and durations); `time.monotonic()` is an
  explicit `now` parameter.
* Cooperative `asyncio` control flow is modelled by cutting each coroutine
  at its suspension points (`await asyncio.sleep`, `await fut`): the
  synchronous prefix of each function becomes a total Lean function
  returning an outcome that says how the coroutine suspended, returned or
  raised.
* Exceptions are explicit outcome constructors.
-/

/-! ## Response headers (`aiohttp` response headers as read by the code)

Only the rate-limit relevant headers are modelled.  An absent or empty
header (falsy in the walrus tests of `RateLimiter.update`) is `none`. -/

structure RHeaders where
  bucket : Option String
  remaining : Option Int
  limit : Option Int
  resetAfter : Option Int
  via : Bool
deriving DecidableEq

/-! ## RateLimiter (`pydisc/ratelimits.py`)

State of one `RateLimiter` instance.  `throttleTask` models the
`self._throttle_task` handle together with the control point of the task
it references:
* `idle`      : the handle is `None`;
* `loopHead`  : a `_process_queue` task exists and is at the top of its
  `while self._queue` loop;
* `sleeping w`: the task is suspended in `asyncio.sleep` inside
  `_handle_wait` and wakes at time `w`;
* `crashed`   : the task finished with an exception (the `RateLimited`
  raise in `_handle_wait`), but the handle was never reset to `None`
  because `self._throttle_task = None` only runs on normal exit. -/

inductive TaskState
  | idle
  | loopHead
  | sleeping (wakeAt : Int)
  | crashed
deriving DecidableEq

structure RateLimiter where
  limit : Int
  period : Int
  maxRatelimitTimeout : Option Int
  remaining : Int
  windowReset : Int
  globalReset : Option Int
  queue : List Nat
  throttleTask : TaskState
deriving DecidableEq

/-- `RateLimiter._refresh_window`. -/
def refreshWindow (s : RateLimiter) (now : Int) : RateLimiter :=
  if s.windowReset ≤ now then
    { s with remaining := s.limit, windowReset := now + s.period }
  else s

/-- Outcome of `RateLimiter._handle_wait(wait_time)` up to its suspension
point: either the ceiling test fires (every queued future gets
`RateLimited(wait_time)` set as its exception and the coroutine raises
`RateLimited(wait_time)`), or the coroutine sleeps until `now + wait`. -/
inductive WaitOutcome
  | sleep (s : RateLimiter) (wakeAt : Int)
  | ceiling (s : RateLimiter) (failed : List Nat) (retryAfter : Int)
deriving DecidableEq

/-- `RateLimiter._handle_wait` called at time `now` with argument `wait`. -/
def handleWait (s : RateLimiter) (now wait : Int) : WaitOutcome :=
  match s.maxRatelimitTimeout with
  | some m =>
      if m < wait then .ceiling { s with queue := [] } s.queue wait
      else .sleep s (now + wait)
  | none => .sleep s (now + wait)

/-- How a call to `RateLimiter.acquire` leaves the coroutine:
* `done s t`              : returned normally at time `t`, one permit consumed;
* `globalSleep s w wid`   : suspended in the global-reset sleep until `w`
  (it then resumes at `acquirePost`);
* `globalCeiling s f ra`  : raised `RateLimited(ra)` out of `_handle_wait`,
  failing the queued waiters `f` with the same error;
* `enqueued s wid started`: appended future `wid` to the queue and is
  awaiting it; `started` says whether a fresh `_process_queue` task was
  created (only when the handle was `None`). -/
inductive AcquireStep
  | done (s : RateLimiter) (at_ : Int)
  | globalSleep (s : RateLimiter) (wakeAt : Int) (wid : Nat)
  | globalCeiling (s : RateLimiter) (failed : List Nat) (retryAfter : Int)
  | enqueued (s : RateLimiter) (wid : Nat) (startedDrain : Bool)
deriving DecidableEq

/-- The part of `RateLimiter.acquire` after the global-reset check. -/
def acquirePost (s : RateLimiter) (now : Int) (wid : Nat) : AcquireStep :=
  if 0 < s.remaining then .done { s with remaining := s.remaining - 1 } now
  else
    let started := s.throttleTask = TaskState.idle
    .enqueued
      { s with
        queue := s.queue ++ [wid],
        throttleTask := if started then .loopHead else s.throttleTask }
      wid started

/-- `RateLimiter.acquire` entered at time `now` by caller `wid`, up to its
first suspension point. -/
def acquireEntry (s : RateLimiter) (now : Int) (wid : Nat) : AcquireStep :=
  let s1 := refreshWindow s now
  match s1.globalReset with
  | some g =>
      if 0 < g - now then
        match handleWait s1 now (g - now) with
        | .sleep s2 wakeAt => .globalSleep s2 wakeAt wid
        | .ceiling s2 failed ra => .globalCeiling s2 failed ra
      else acquirePost s1 now wid
  | none => acquirePost s1 now wid

/-- `RateLimiter.set_global_ratelimit(retry_after)` at time `now`. -/
def setGlobalRatelimit (s : RateLimiter) (now retryAfter : Int) : RateLimiter :=
  { s with globalReset := some (now + retryAfter) }

/-- `RateLimiter.update(request)`: refresh `limit`, `_remaining` and
`_window_reset` from whatever headers are present. -/
def RateLimiter.update (s : RateLimiter) (now : Int) (h : RHeaders) : RateLimiter :=
  let limit := match h.limit with | some l => l | none => s.limit
  let remaining := match h.remaining with | some r => r | none => s.remaining
  let windowReset := match h.resetAfter with | some r => now + r | none => s.windowReset
  { s with limit := limit, remaining := remaining, windowReset := windowReset }

/-- How a run of the `_process_queue` task ended:
* `finished`   : the queue emptied and the handle was reset to `None`;
* `sleeping w` : the task suspended in `_handle_wait` until time `w`;
* `crashed ra` : `_handle_wait` raised `RateLimited(ra)`; the task died
  with the handle still set;
* `diverged`   : the loop spins without ever suspending (this happens in
  the source only when `remaining` is negative: the `== 0` test misses it
  and the release loop frees nobody), or the structural fuel ran out. -/
inductive DrainStatus
  | finished
  | sleeping (wakeAt : Int)
  | crashed (retryAfter : Int)
  | diverged
deriving DecidableEq

structure DrainResult where
  rl : RateLimiter
  released : List Nat
  failed : List Nat
  status : DrainStatus
deriving DecidableEq

/-- One run of the body of `RateLimiter._process_queue` from the top of its
`while self._queue` loop at time `now`, with structural fuel (each loop
iteration that neither suspends nor exits releases at least one waiter, so
`s.queue.length + 1` fuel is always enough). -/
def drainLoopAux (fuel : Nat) (s : RateLimiter) (now : Int) : DrainResult :=
  match fuel with
  | 0 => ⟨s, [], [], .diverged⟩
  | fuel + 1 =>
    if s.queue = [] then ⟨{ s with throttleTask := .idle }, [], [], .finished⟩
    else
      let s1 := refreshWindow s now
      let wait := max 0 (s1.windowReset - now)
      if s1.remaining = 0 then
        match handleWait s1 now wait with
        | .sleep s2 wakeAt =>
            ⟨{ s2 with throttleTask := .sleeping wakeAt }, [], [], .sleeping wakeAt⟩
        | .ceiling s2 failed ra =>
            ⟨{ s2 with throttleTask := .crashed }, [], failed, .crashed ra⟩
      else if s1.remaining < 0 then ⟨s1, [], [], .diverged⟩
      else
        let k := min s1.remaining.toNat s1.queue.length
        let s2 := { s1 with queue := s1.queue.drop k, remaining := s1.remaining - k }
        let r := drainLoopAux fuel s2 now
        ⟨r.rl, s1.queue.take k ++ r.released, r.failed, r.status⟩

/-- `RateLimiter._process_queue` run (or resumed at the loop top) at `now`. -/
def drainLoop (s : RateLimiter) (now : Int) : DrainResult :=
  drainLoopAux (s.queue.length + 1) s now

/-- Whether the per-bucket global gate set by `set_global_ratelimit` is
still in the future at time `now`. -/
def globalGateActiveB (s : RateLimiter) (now : Int) : Bool :=
  match s.globalReset with
  | some g => decide (now < g)
  | none => false

/-! ## Whole-bucket trace semantics

A small-step system around ONE `RateLimiter` instance, used to reason about
what can ever happen to a queued waiter.  The events are exactly the
operations the rest of the repository performs on a bucket: time passing,
a caller invoking `acquire`, a caller parked in the global sleep resuming,
the `_process_queue` task getting scheduled, and `update` being fed
response headers.  (`set_global_ratelimit` has no caller anywhere in the
repository, so it is not an event.)

`resolved` records every queue future that got completed, with `true` for
`set_result` (a released permit) and `false` for `set_exception`
(a `RateLimited` failure). -/

structure BucketSys where
  rl : RateLimiter
  now : Int
  resolved : List (Nat × Bool)
  globalSleepers : List (Nat × Int)
deriving DecidableEq

inductive SysEvent
  | elapse (d : Nat)
  | callAcquire (wid : Nat)
  | resumeGlobal (wid : Nat)
  | drainRun
  | updateHeaders (remaining limit resetAfter : Option Int)
deriving DecidableEq

/-- Whether the `_process_queue` task can be scheduled at time `now`. -/
def drainRunnable (t : TaskState) (now : Int) : Bool :=
  match t with
  | .loopHead => true
  | .sleeping w => decide (w ≤ now)
  | _ => false

def sysStep (s : BucketSys) (e : SysEvent) : BucketSys :=
  match e with
  | .elapse d => { s with now := s.now + d }
  | .callAcquire wid =>
      match acquireEntry s.rl s.now wid with
      | .done rl _ => { s with rl := rl }
      | .globalSleep rl wakeAt w =>
          { s with rl := rl, globalSleepers := s.globalSleepers ++ [(w, wakeAt)] }
      | .globalCeiling rl failed _ =>
          { s with rl := rl, resolved := s.resolved ++ failed.map (fun w => (w, false)) }
      | .enqueued rl _ _ => { s with rl := rl }
  | .resumeGlobal wid =>
      match s.globalSleepers.find? (fun p => p.1 = wid) with
      | some p =>
          if p.2 ≤ s.now then
            let s1 : BucketSys :=
              { s with globalSleepers := s.globalSleepers.eraseP (fun q => q.1 = wid) }
            match acquirePost s1.rl s1.now p.1 with
            | .done rl _ => { s1 with rl := rl }
            | .enqueued rl _ _ => { s1 with rl := rl }
            | _ => s1
          else s
      | none => s
  | .drainRun =>
      if drainRunnable s.rl.throttleTask s.now then
        let r := drainLoop s.rl s.now
        { s with
          rl := r.rl,
          resolved :=
            s.resolved ++ r.released.map (fun w => (w, true))
              ++ r.failed.map (fun w => (w, false)) }
      else s
  | .updateHeaders remaining limit resetAfter =>
      { s with
        rl := s.rl.update s.now
          { bucket := none, remaining := remaining, limit := limit,
            resetAfter := resetAfter, via := false } }

def runSys (s : BucketSys) : List SysEvent → BucketSys
  | [] => s
  | e :: evs => runSys (sysStep s e) evs

/-- A waiter that has been enqueued on the bucket but whose future can never
be completed by any sequence of events: it stays in the queue and never
appears among the resolved futures. -/
def strandedForever (s : BucketSys) (w : Nat) : Prop :=
  ∀ evs : List SysEvent,
    w ∈ (runSys s evs).rl.queue ∧ ∀ b : Bool, (w, b) ∉ (runSys s evs).resolved

/-! ## Routes and the REST handler (`pydisc/http.py`) -/

/-- `Route`: path parameters that matter for rate limiting.  The resolved
ids are kept as strings (the source applies `str(...)` when joining). -/
structure Route where
  method : String
  path : String
  metadata : Option String
  channelId : Option String
  guildId : Option String
  webhookId : Option String
  webhookToken : Option String
deriving DecidableEq

/-- `Route.key`: `f"{method} {path}:{metadata}"` when `metadata` is truthy,
else `f"{method} {path}"`. -/
def Route.key (r : Route) : String :=
  match r.metadata with
  | some m => if m = "" then r.method ++ " " ++ r.path else r.method ++ " " ++ r.path ++ ":" ++ m
  | none => r.method ++ " " ++ r.path

/-- `Route.major_params`: the non-`None` scoping ids joined with `+`. -/
def Route.majorParams (r : Route) : String :=
  String.intercalate "+"
    (List.filterMap id [r.channelId, r.guildId, r.webhookId, r.webhookToken])

/-- Association-list lookup, first binding wins (a Python dict has one
binding per key, which `insertA` maintains). -/
def lookupA {κ α : Type} [DecidableEq κ] : List (κ × α) → κ → Option α
  | [], _ => none
  | p :: rest, k => if p.1 = k then some p.2 else lookupA rest k

/-- `d[k] = v` on an association list. -/
def insertA {κ α : Type} [DecidableEq κ] : List (κ × α) → κ → α → List (κ × α)
  | [], k, v => [(k, v)]
  | p :: rest, k, v => if p.1 = k then (k, v) :: rest else p :: insertA rest k v

/-- `d.pop(k, None)` on an association list. -/
def eraseA {κ α : Type} [DecidableEq κ] : List (κ × α) → κ → List (κ × α)
  | [], _ => []
  | p :: rest, k => if p.1 = k then rest else p :: eraseA rest k

/-- The decoded body that `json_or_text` hands back: either plain text or a
JSON object.  Of a JSON body only the fields the rate-limit logic reads
(`retry_after`, `global`) are interpreted; `tag` keeps distinct payloads
distinct. -/
inductive Body
  | text (s : String)
  | json (retryAfter : Int) (isGlobal : Bool) (tag : Nat)
deriving DecidableEq

def Body.isText : Body → Bool
  | .text _ => true
  | .json _ _ _ => false

structure Response where
  status : Int
  headers : RHeaders
  body : Body
deriving DecidableEq

/-- The mutable state of a `RESTHandler` that the request path touches:
`_bucket_hashes`, `_buckets` (bucket objects named by allocation number,
their `RateLimiter` state held in `bucketStates`), `_max_rl_timeout` and
the `_global_rl_over` event.  `nextBucket` counts allocations, so two
states with the same `nextBucket` have created the same bucket
instances. -/
structure HandlerState where
  bucketHashes : List (String × String)
  buckets : List (String × Nat)
  bucketStates : List (Nat × RateLimiter)
  nextBucket : Nat
  maxRl : Option Int
  globalEvent : Bool
deriving DecidableEq

/-- The `RateLimiter(5, 1, name=key, max_ratelimit_timeout=...)` a fresh
bucket gets in `RESTHandler._get_bucket`, constructed at time `now`. -/
def freshRateLimiter (maxRl : Option Int) (now : Int) : RateLimiter :=
  { limit := 5, period := 1, maxRatelimitTimeout := maxRl,
    remaining := 5, windowReset := now + 1, globalReset := none,
    queue := [], throttleTask := .idle }

/-- The local `bucket_hash` variable and `key` computed at the top of
`RESTHandler.request`. -/
def computeKey (st : HandlerState) (r : Route) : Option String × String :=
  match lookupA st.bucketHashes r.key with
  | some h => (some h, h ++ ":" ++ r.majorParams)
  | none => (none, r.key ++ ":" ++ r.majorParams)

/-- `RESTHandler._get_bucket(key)` at time `now`: returns the existing
bucket for `key` or allocates a fresh one. -/
def getBucket (st : HandlerState) (key : String) (now : Int) : HandlerState × Nat :=
  match lookupA st.buckets key with
  | some b => (st, b)
  | none =>
      let b := st.nextBucket
      ({ st with
          buckets := insertA st.buckets key b,
          bucketStates := insertA st.bucketStates b (freshRateLimiter st.maxRl now),
          nextBucket := b + 1 }, b)

/-- The bucket-hash discovery block of `RESTHandler.request` (run on every
response): `bucketHashLocal` is the local `bucket_hash` variable of the request,
`rlHash` the `X-RateLimit-Bucket` header of this response. -/
def discoverBucketHash (st : HandlerState) (routeKey major key : String)
    (bucketHashLocal : Option String) (rlId : Nat) (rlHash : Option String) :
    HandlerState :=
  match rlHash with
  | none => st
  | some h =>
      if bucketHashLocal = some h then st
      else
        match bucketHashLocal with
        | some _ =>
            { st with
              bucketHashes := insertA st.bucketHashes routeKey h,
              buckets := eraseA (insertA st.buckets (h ++ ":" ++ major) rlId) key }
        | none =>
            match lookupA st.bucketHashes routeKey with
            | none =>
                { st with
                  bucketHashes := insertA st.bucketHashes routeKey h,
                  buckets := insertA st.buckets (h ++ ":" ++ major) rlId }
            | some _ => st

/-- `ratelimit.update(response)` applied to the bucket `rlId` holds. -/
def updateBucketState (st : HandlerState) (rlId : Nat) (now : Int) (h : RHeaders) :
    HandlerState :=
  match lookupA st.bucketStates rlId with
  | some rl =>
      { st with bucketStates := insertA st.bucketStates rlId (rl.update now h) }
  | none => st

/-- The `if self.max_ratelimit_timeout and retry_after > self.max_ratelimit_timeout`
test (`0.0` is falsy). -/
def maxRlExceeded (m : Option Int) (ra : Int) : Bool :=
  match m with
  | some v => if v = 0 then false else decide (v < ra)
  | none => false

/-- The typed errors `RESTHandler.request` can raise. -/
inductive ReqError
  | httpError (status : Int)
  | forbidden
  | notFound
  | serverError (status : Int)
  | rateLimited (retryAfter : Int)
deriving DecidableEq

/-- How a modelled `RESTHandler.request` call ends.  `blockedGlobal` and
`blockedBucket` mark the calls that suspend before the attempt loop (on
`_global_rl_over.wait()` or inside `acquire`); `outOfScript` means the
transport script supplied fewer responses than the loop asked for. -/
inductive ReqResult
  | ok (b : Body)
  | fail (e : ReqError)
  | blockedGlobal
  | blockedBucket
  | outOfScript
deriving DecidableEq

structure ReqOutcome where
  result : ReqResult
  state : HandlerState
  sleeps : List Int
  used : Nat
deriving DecidableEq

def transientStatuses : List Int := [500, 502, 503, 524]

/-- The `for attempt in range(5)` loop of `RESTHandler.request`.  Each
iteration consumes the next scripted transport response.  `sleeps` records
every `asyncio.sleep` duration in order; `used` counts responses consumed;
`last` is the response variable surviving the loop. -/
def attemptLoop (routeKey major key : String) (bucketHashLocal : Option String)
    (rlId : Nat) (st : HandlerState) (now : Int) (fuel attempt : Nat)
    (script : List Response) (sleeps : List Int) (used : Nat)
    (last : Option Response) : ReqOutcome :=
  if fuel = 0 then
    match last with
    | some r =>
        if 500 ≤ r.status then ⟨.fail (.serverError r.status), st, sleeps, used⟩
        else ⟨.fail (.httpError r.status), st, sleeps, used⟩
    | none => ⟨.fail (.httpError (-1)), st, sleeps, used⟩
  else
    match script with
    | [] => ⟨.outOfScript, st, sleeps, used⟩
    | resp :: rest =>
      let st1 := discoverBucketHash st routeKey major key bucketHashLocal rlId
        resp.headers.bucket
      let st2 :=
        if resp.headers.remaining.isSome ∧ resp.status ≠ 429 then
          updateBucketState st1 rlId now resp.headers
        else st1
      if 200 ≤ resp.status ∧ resp.status < 300 then
        ⟨.ok resp.body, st2, sleeps, used + 1⟩
      else if resp.status = 429 then
        match resp.body with
        | .text _ => ⟨.fail (.httpError 429), st2, sleeps, used + 1⟩
        | .json ra isG _ =>
          if resp.headers.via = false then ⟨.fail (.httpError 429), st2, sleeps, used + 1⟩
          else if maxRlExceeded st2.maxRl ra then
            ⟨.fail (.rateLimited ra), st2, sleeps, used + 1⟩
          else
            let st3 := if isG then { st2 with globalEvent := false } else st2
            let st4 := if isG then { st3 with globalEvent := true } else st3
            attemptLoop routeKey major key bucketHashLocal rlId st4 (now + ra)
              (fuel - 1) (attempt + 1) rest (sleeps ++ [ra]) (used + 1) (some resp)
      else if resp.status ∈ transientStatuses then
        let d : Int := 1 + (attempt : Int) * 2
        attemptLoop routeKey major key bucketHashLocal rlId st2 (now + d)
          (fuel - 1) (attempt + 1) rest (sleeps ++ [d]) (used + 1) (some resp)
      else if resp.status = 403 then ⟨.fail .forbidden, st2, sleeps, used + 1⟩
      else if resp.status = 404 then ⟨.fail .notFound, st2, sleeps, used + 1⟩
      else if 500 ≤ resp.status then ⟨.fail (.serverError resp.status), st2, sleeps, used + 1⟩
      else ⟨.fail (.httpError resp.status), st2, sleeps, used + 1⟩

/-- `RESTHandler.request(route, ...)` at time `now`, with the transport
modelled by a script of responses.  The global-event check and the bucket
`acquire` precede the attempt loop exactly as in the source; a call that
would suspend there is reported as blocked. -/
def requestRun (st : HandlerState) (now : Int) (route : Route)
    (script : List Response) : ReqOutcome :=
  let bh := (computeKey st route).1
  let bucketKey := (computeKey st route).2
  let got := getBucket st bucketKey now
  let st1 := got.1
  let rlId := got.2
  if st1.globalEvent = false then ⟨.blockedGlobal, st1, [], 0⟩
  else
    let rl := (lookupA st1.bucketStates rlId).getD (freshRateLimiter st1.maxRl now)
    match acquireEntry rl now 0 with
    | .done rl2 t =>
        let st2 := { st1 with bucketStates := insertA st1.bucketStates rlId rl2 }
        attemptLoop route.key route.majorParams bucketKey bh rlId st2 t 5 0 script [] 0 none
    | _ => ⟨.blockedBucket, st1, [], 0⟩

/-- The handler state `requestRun` reaches when the bucket key was unknown:
the fresh bucket is allocated and its acquire has consumed one permit. -/
def freshAllocState (st : HandlerState) (key : String) (now : Int) : HandlerState :=
  { st with
    buckets := insertA st.buckets key st.nextBucket,
    bucketStates :=
      insertA (insertA st.bucketStates st.nextBucket (freshRateLimiter st.maxRl now))
        st.nextBucket { freshRateLimiter st.maxRl now with remaining := 4 },
    nextBucket := st.nextBucket + 1 }

/-! ## Gateway poller (`pydisc/websockets/poller.py`, `pydisc/errors.py`) -/

def opDispatch : Int := 0
def opHeartbeat : Int := 1
def opIdentify : Int := 2
def opResume : Int := 6
def opReconnect : Int := 7
def opInvalidSession : Int := 9
def opHello : Int := 10
def opHeartbeatAck : Int := 11

/-- The `resume` keyword of `GatewayReconnectNeeded.__init__` defaults to
`True` (`pydisc/errors.py`): a bare `raise GatewayReconnectNeeded` carries
`resume=True`. -/
def gatewayReconnectDefaultResume : Bool := true

/-- The `d` field of an inbound envelope, as far as the poller reads it. -/
inductive DVal
  | null
  | boolean (b : Bool)
  | readyData (sessionId : String) (resumeUrl : String)
  | helloData (interval : Int)
  | other
deriving DecidableEq

/-- An inbound gateway envelope after `_from_json`: `msg.get("op")`,
`msg.get("s")`, `msg.get("t")`, `msg.get("d")`. -/
structure Envelope where
  op : Option Int
  s : Option Int
  t : Option String
  d : DVal
deriving DecidableEq

def defaultGatewayUrl : String := "wss://gateway.discord.gg/"

/-- The `DiscordWebSocketPoller` attributes the lifecycle logic touches.
`keepAlive` is whether a `KeepAliveThread` is attached; `restToken` is
`self.rest_handler.token`. -/
structure PollerState where
  sessionId : Option String
  sequence : Option Int
  gatewayUrl : String
  closeCode : Option Int
  keepAlive : Bool
  restToken : Option String
  initialIdentify : Bool
deriving DecidableEq

/-- `DiscordWebSocketPoller.close(code)`: stop the keep-alive thread and
record the requested close code. -/
def closeWith (p : PollerState) (code : Int) : PollerState :=
  { p with keepAlive := false, closeCode := some code }

/-- The `token` property of `DiscordWebSocketPoller`.  Its body is the bare
expression statement `self.rest_handler.token` with no `return`, so the
property evaluates the attribute and returns `None`. -/
def DiscordWebSocketPoller.token (p : PollerState) : Option String :=
  let _readAttribute := p.restToken
  none

/-- An outbound control frame, keeping the fields the claims are about. -/
structure GatewayFrame where
  op : Int
  token : Option String
  seq : Option Int
  sessionId : Option String
deriving DecidableEq

/-- The payload `DiscordWebSocketPoller.identify` sends (`"d"` carries
`"token": self.token` and no session fields). -/
def identifyPayload (p : PollerState) : GatewayFrame :=
  { op := opIdentify, token := DiscordWebSocketPoller.token p,
    seq := none, sessionId := none }

/-- The payload `DiscordWebSocketPoller.resume` sends (`"seq": self.sequence`,
`"session_id": self.session_id`, `"token": self.token`). -/
def resumePayload (p : PollerState) : GatewayFrame :=
  { op := opResume, token := DiscordWebSocketPoller.token p,
    seq := p.sequence, sessionId := p.sessionId }

/-- The frame `DiscordWebSocketPoller.start(resume=...)` sends after the
hello exchange: `identify()` when `resume` is false, else `resume()`. -/
def startFrame (p : PollerState) (resume : Bool) : GatewayFrame :=
  if resume then resumePayload p else identifyPayload p

/-- What a `received_message` call did besides updating the state. -/
inductive RecvAction
  | noAction
  | raisedReconnect (resume : Bool)
  | sentHeartbeat
  | parsedEvent (t : Option String)
  | errored
deriving DecidableEq

/-- The tail of `received_message` (the `READY` / `RESUMED` capture and
`parse_event` call) reached by dispatch envelopes and by unknown op codes. -/
def dispatchTail (p : PollerState) (e : Envelope) : PollerState × RecvAction :=
  if e.t = some "READY" then
    match e.d with
    | .readyData sid url =>
        ({ p with sequence := e.s, sessionId := some sid, gatewayUrl := url },
          .parsedEvent e.t)
    | _ => (p, .errored)
  else (p, .parsedEvent e.t)

/-- `DiscordWebSocketPoller.received_message` on a decoded envelope.  The
sequence capture runs first (`if seq is not None: self.sequence = seq`);
non-dispatch op codes are handled next; unknown op codes fall through to
the dispatch tail, as in the source. -/
def receivedMessage (p : PollerState) (e : Envelope) : PollerState × RecvAction :=
  let p1 := match e.s with
            | some n => { p with sequence := some n }
            | none => p
  if e.op ≠ some opDispatch then
    if e.op = some opReconnect then
      (closeWith p1 4000, .raisedReconnect gatewayReconnectDefaultResume)
    else if e.op = some opHeartbeatAck then (p1, .noAction)
    else if e.op = some opHeartbeat then (p1, .sentHeartbeat)
    else if e.op = some opHello then ({ p1 with keepAlive := true }, .sentHeartbeat)
    else if e.op = some opInvalidSession then
      match e.d with
      | .boolean true => (closeWith p1 4000, .raisedReconnect gatewayReconnectDefaultResume)
      | _ =>
          let p2 := { p1 with
            sequence := none, sessionId := none, gatewayUrl := defaultGatewayUrl }
          (closeWith p2 1000, .raisedReconnect gatewayReconnectDefaultResume)
    else dispatchTail p1 e
  else dispatchTail p1 e

/-- Processing a list of inbound envelopes in order (state updates only). -/
def processEnvs (p : PollerState) : List Envelope → PollerState
  | [] => p
  | e :: es => processEnvs (receivedMessage p e).1 es

/-- Python `a or b` on optional close codes (`0` is falsy). -/
def pyOr (a b : Option Int) : Option Int :=
  match a with
  | some v => if v = 0 then b else some v
  | none => b

/-- `code not in (1000, 4004, 4010, 4011, 4012, 4013, 4014)` membership. -/
def fatalCloseCodes : List Int := [1000, 4004, 4010, 4011, 4012, 4013, 4014]

def optMem (c : Option Int) (l : List Int) : Bool :=
  match c with
  | some v => decide (v ∈ l)
  | none => false

/-- `DiscordWebSocketPoller.can_handle_close_code`: `true` means the close
is resumable (a reconnect will be attempted). -/
def can_handle_close_code (closeCode wsCloseCode : Option Int) : Bool :=
  let code := pyOr closeCode wsCloseCode
  let isImproper := decide (closeCode = none) && decide (wsCloseCode = some 1000)
  isImproper || !(optMem code fatalCloseCodes)

/-- What the closure handler at the bottom of `poll_event` raises. -/
inductive PollCloseResult
  | reconnectNeeded (resume : Bool)
  | connectionClosed (code : Int)
deriving DecidableEq

/-- `GatewayConnectionClosed.code`: `code or ws.close_code or -1`. -/
def gatewayClosedErrCode (c : Option Int) : Int :=
  match c with
  | some v => if v = 0 then -1 else v
  | none => -1

/-- The `WebSocketClosure` handling in `poll_event`: a resumable code
raises `GatewayReconnectNeeded` (default `resume=True`), otherwise
`GatewayConnectionClosed` carrying the effective code. -/
def pollEventOnClosure (closeCode wsCloseCode : Option Int) : PollCloseResult :=
  if can_handle_close_code closeCode wsCloseCode then
    .reconnectNeeded gatewayReconnectDefaultResume
  else .connectionClosed (gatewayClosedErrCode (pyOr closeCode wsCloseCode))

/-! ## Connection supervisor (`Client.connect`, `pydisc/client.py`) -/

/-- The exception one iteration of the `while not self.is_closed()` loop in
`Client.connect` ends with (thrown out of `start` or the `poll_event`
loop). -/
inductive ConnOutcome
  | reconnectNeeded (resume : Bool)
  | gatewayClosed (code : Int)
  | osErr (errno : Int)
  | otherTransient
deriving DecidableEq

/-- How the supervisor loop ends. -/
inductive ConnEnd
  | scriptOver
  | raisedPrivileged
  | raisedClosed (code : Int)
  | raisedOther
  | returned
deriving DecidableEq

/-- `Client.connect(reconnect=...)` driven by a script of per-iteration
outcomes.  The returned list records each `self._ws.start(resume=...)`
call and its `resume` flag, in order; on an exhausted script the flag of
the pending attempt is still recorded. -/
def connectLoop (reconnect : Bool) (resume : Bool) : List ConnOutcome → List Bool × ConnEnd
  | [] => ([resume], .scriptOver)
  | o :: rest =>
    match o with
    | .reconnectNeeded r =>
        let next := connectLoop reconnect r rest
        (resume :: next.1, next.2)
    | .gatewayClosed code =>
        if reconnect = false then
          if code = 1000 then ([resume], .returned) else ([resume], .raisedClosed code)
        else if code = 4014 then ([resume], .raisedPrivileged)
        else if code ≠ 1000 then ([resume], .raisedClosed code)
        else
          let next := connectLoop reconnect true rest
          (resume :: next.1, next.2)
    | .osErr _ =>
        -- errno 54/10054 skips the backoff sleep, every other OSError backs
        -- off first; both paths set resume=True and continue, and the model
        -- does not record backoff sleeps, so the two merge here.
        if reconnect = false then ([resume], .raisedOther)
        else
          let next := connectLoop reconnect true rest
          (resume :: next.1, next.2)
    | .otherTransient =>
        if reconnect = false then ([resume], .raisedOther)
        else
          let next := connectLoop reconnect true rest
          (resume :: next.1, next.2)

/-- Modelled from the spec: the recorded sequence register described by the
sentence "across any sequence of dispatched envelopes within one connected
session, the recorded `sequence` is non-decreasing" — the register keeps
the last non-null `s` field seen.  Used as the specification side of the
C9 comparison. -/
def specRecordedSequence (init : Option Int) (envs : List Envelope) : Option Int :=
  envs.foldl (fun cur e => match e.s with | some n => some n | none => cur) init

/-! ## Concrete states and predicates used by the theorems -/

/-- A bucket whose window has lapsed, with the per-bucket global gate
tripped until time 100 and one waiter queued: used to examine the drain
routine under a tripped gate. -/
def gateTrippedBucket : RateLimiter :=
  { limit := 1, period := 10, maxRatelimitTimeout := none,
    remaining := 0, windowReset := 5, globalReset := some 100,
    queue := [0], throttleTask := .loopHead }

/-- An exhausted bucket with a 5-second wait ceiling whose next window is
90 seconds away, with waiter 0 queued and the drain task at its loop
head. -/
def ceilingBucket : RateLimiter :=
  { limit := 1, period := 10, maxRatelimitTimeout := some 5,
    remaining := 0, windowReset := 100, globalReset := none,
    queue := [0], throttleTask := .loopHead }

/-- `ceilingBucket` after the drain task dies of the ceiling failure:
queue drained, handle still set to the crashed task. -/
def ceilingBucketAfter : RateLimiter :=
  { limit := 1, period := 10, maxRatelimitTimeout := some 5,
    remaining := 0, windowReset := 100, globalReset := none,
    queue := [], throttleTask := .crashed }

/-- `ceilingBucketAfter` after a later caller (waiter 1) enqueues. -/
def ceilingBucketStranded : RateLimiter :=
  { limit := 1, period := 10, maxRatelimitTimeout := some 5,
    remaining := 0, windowReset := 100, globalReset := none,
    queue := [1], throttleTask := .crashed }

/-- The whole-bucket system just after waiter 1 enqueued on the crashed
bucket. -/
def strandedSys : BucketSys :=
  { rl := ceilingBucketStranded, now := 11, resolved := [], globalSleepers := [] }

/-- The invariant that pins a waiter forever: the per-bucket global gate is
clear (so no event can reach the queue-draining error path), the drain
task handle points at a crashed task (so no drain run is schedulable and
no new task will ever be created), the waiter is queued, nobody sleeps in
the global gate, and the future of the waiter is uncompleted. -/
def StrandedInv (s : BucketSys) (w : Nat) : Prop :=
  s.rl.globalReset = none ∧ s.rl.throttleTask = .crashed ∧ w ∈ s.rl.queue ∧
    s.globalSleepers = [] ∧ ∀ b : Bool, (w, b) ∉ s.resolved

/-- Pointwise order on optional sequence numbers: `none` precedes
everything, a recorded number only grows. -/
def seqLE (a b : Option Int) : Prop :=
  match a, b with
  | none, _ => True
  | some _, none => False
  | some x, some y => x ≤ y

/-- A dispatch envelope the C9 statement ranges over: op code 0, and a
`READY` envelope carries a non-null `s` and a well-formed ready payload
(otherwise `received_message` dies in a `KeyError`). -/
def dispatchEnvOk (e : Envelope) : Prop :=
  e.op = some opDispatch ∧
    (e.t = some "READY" →
      e.s.isSome = true ∧ ∃ sid url, e.d = DVal.readyData sid url)

/-- A connected-session poller with a known session. -/
def connectedPoller : PollerState :=
  { sessionId := some "sess", sequence := some 42,
    gatewayUrl := "wss://resume.example/", closeCode := none,
    keepAlive := true, restToken := some "tok", initialIdentify := false }

/-- An `invalid_session` envelope with `d=false`. -/
def invalidSessionFalse : Envelope :=
  { op := some opInvalidSession, s := none, t := none, d := .boolean false }

/-- Two dispatch envelopes whose `s` fields arrive out of order. -/
def envSeq5 : Envelope :=
  { op := some opDispatch, s := some 5, t := some "MESSAGE_CREATE", d := .other }

def envSeq3 : Envelope :=
  { op := some opDispatch, s := some 3, t := some "MESSAGE_CREATE", d := .other }

/-- A poller at the start of a connected session. -/
def sessionStartPoller : PollerState :=
  { sessionId := some "sess", sequence := none,
    gatewayUrl := "wss://resume.example/", closeCode := none,
    keepAlive := true, restToken := some "tok", initialIdentify := false }

/-- A channel route used for concrete REST scenarios. -/
def exampleRoute : Route :=
  { method := "GET", path := "/channels/c", metadata := none,
    channelId := some "7", guildId := none, webhookId := none,
    webhookToken := none }

/-- A 200 response announcing bucket hash `abc`. -/
def hashResponse : Response :=
  { status := 200,
    headers := { bucket := some "abc", remaining := some 4, limit := some 5,
                 resetAfter := some 1, via := true },
    body := .json 0 false 0 }

/-- A REST handler state with no discovered buckets and the global event
set (requests may proceed). -/
def emptyHandler : HandlerState :=
  { bucketHashes := [], buckets := [], bucketStates := [], nextBucket := 0,
    maxRl := some 30, globalEvent := true }

/-- A REST handler state configured with `maxRatelimitTimeout = 5`. -/
def ceilingHandler : HandlerState :=
  { bucketHashes := [], buckets := [], bucketStates := [], nextBucket := 0,
    maxRl := some 5, globalEvent := true }

/-- Headers carrying only the `Via` marker. -/
def viaOnlyHeaders : RHeaders :=
  { bucket := none, remaining := none, limit := none, resetAfter := none, via := true }

def firstRun : ReqOutcome := requestRun emptyHandler 0 exampleRoute [hashResponse]

def secondRun : ReqOutcome := requestRun firstRun.state 0 exampleRoute [hashResponse]

/-! ## Helper lemmas -/

theorem refreshWindow_globalReset (s : RateLimiter) (now : Int) :
    (refreshWindow s now).globalReset = s.globalReset := by
  unfold refreshWindow; split <;> rfl

theorem refreshWindow_queue (s : RateLimiter) (now : Int) :
    (refreshWindow s now).queue = s.queue := by
  unfold refreshWindow; split <;> rfl

theorem refreshWindow_throttleTask (s : RateLimiter) (now : Int) :
    (refreshWindow s now).throttleTask = s.throttleTask := by
  unfold refreshWindow; split <;> rfl

/-! ## C4 -/

/-- C4: for any bucket with `limit ≥ 1` and no active global throttle,
once `now ≥ windowResetAt` the next `acquire` returns immediately (no
enqueue, no sleep), and afterwards `remaining = limit - 1` and
`windowResetAt = now + period`. -/
theorem c4_window_reset_acquire (s : RateLimiter) (now : Int) (wid : Nat)
    (hlim : 1 ≤ s.limit)
    (hgate : ∀ g, s.globalReset = some g → g ≤ now)
    (hwin : s.windowReset ≤ now) :
    acquireEntry s now wid =
      .done { s with remaining := s.limit - 1, windowReset := now + s.period } now := by
  have h1 : refreshWindow s now =
      { s with remaining := s.limit, windowReset := now + s.period } := by
    unfold refreshWindow; rw [if_pos hwin]
  unfold acquireEntry
  rw [h1]
  cases hg : s.globalReset with
  | none =>
      show acquirePost _ now wid = _
      unfold acquirePost
      rw [if_pos (by simpa using hlim)]
  | some g =>
      have hle : g ≤ now := hgate g hg
      show (if 0 < g - now then _ else acquirePost _ now wid) = _
      rw [if_neg (by omega)]
      unfold acquirePost
      rw [if_pos (by simpa using hlim)]

/-- C4 witness: a concrete bucket with `limit = 5`, `period = 7`, a lapsed
window and no global gate acquires immediately into
`remaining = 4`, `windowResetAt = 10`. -/
def c4Bucket : RateLimiter :=
  { limit := 5, period := 7, maxRatelimitTimeout := some 30,
    remaining := 0, windowReset := 3, globalReset := none,
    queue := [], throttleTask := .idle }

theorem c4_window_reset_acquire_witness :
    acquireEntry c4Bucket 3 0 =
      .done
        { c4Bucket with
          remaining := c4Bucket.limit - 1,
          windowReset := 3 + c4Bucket.period } 3 :=
  c4_window_reset_acquire c4Bucket 3 0 (by decide)
    (by intro g h; simp [c4Bucket] at h) (by decide)

theorem refreshWindow_maxRatelimitTimeout (s : RateLimiter) (now : Int) :
    (refreshWindow s now).maxRatelimitTimeout = s.maxRatelimitTimeout := by
  unfold refreshWindow; split <;> rfl

/-! ## C1 -/

/-- C1 counterexample: with the per-bucket global gate tripped until time
100, at time 5 the drain routine still releases the queued waiter 0 — a
bucket dispatches a request while the gate is tripped, refuting the claim
as stated. -/
theorem c1_counterexample :
    globalGateActiveB gateTrippedBucket 5 = true ∧
    (drainLoop gateTrippedBucket 5).released = [0] ∧
    (drainLoop gateTrippedBucket 5).status = .finished := by decide

/-- C1 (amended): tripping the gate sets the reset of this bucket to
`now + retryAfter`; an `acquire` that enters this bucket while its gate is
tripped neither consumes a permit nor enqueues (with no wait ceiling it
sleeps exactly until the gate time `g`); but the drain routine releases
queued waiters without consulting the gate, and the gate lives on the one
`RateLimiter` instance only. -/
theorem c1_global_gate_per_bucket (s : RateLimiter) (now T g : Int) (wid : Nat)
    (hg : s.globalReset = some g) (hlt : now < g) :
    (setGlobalRatelimit s now T).globalReset = some (now + T) ∧
    (∀ s2 t, acquireEntry s now wid ≠ .done s2 t) ∧
    (∀ s2 w b, acquireEntry s now wid ≠ .enqueued s2 w b) ∧
    (s.maxRatelimitTimeout = none →
      acquireEntry s now wid = .globalSleep (refreshWindow s now) g wid) ∧
    (∀ w rest, s.queue = w :: rest → 0 < (refreshWindow s now).remaining →
      (drainLoop s now).released.head? = some w) := by
  have h1 : (refreshWindow s now).globalReset = some g := by
    rw [refreshWindow_globalReset, hg]
  have hpos : (0 : Int) < g - now := by omega
  refine ⟨rfl, ?_, ?_, ?_, ?_⟩
  · intro s2 t
    simp only [acquireEntry, h1]
    rw [if_pos hpos]
    cases handleWait (refreshWindow s now) now (g - now) <;> simp
  · intro s2 w b
    simp only [acquireEntry, h1]
    rw [if_pos hpos]
    cases handleWait (refreshWindow s now) now (g - now) <;> simp
  · intro hnone
    simp only [acquireEntry, h1]
    rw [if_pos hpos]
    unfold handleWait
    rw [refreshWindow_maxRatelimitTimeout, hnone]
    have : now + (g - now) = g := by ring
    rw [this]
  · intro w rest hq hrem
    have hq1 : (refreshWindow s now).queue = w :: rest := by
      rw [refreshWindow_queue, hq]
    have hlen : (refreshWindow s now).queue.length = rest.length + 1 := by
      rw [hq1]; rfl
    obtain ⟨k, hk⟩ :
        ∃ k, min (refreshWindow s now).remaining.toNat
          (refreshWindow s now).queue.length = k + 1 := by
      refine ⟨min (refreshWindow s now).remaining.toNat
        (refreshWindow s now).queue.length - 1, ?_⟩
      rw [hlen]
      omega
    unfold drainLoop drainLoopAux
    rw [if_neg (by rw [hq]; simp)]
    simp only []
    rw [if_neg (by omega), if_neg (by omega), hk, hq1]
    simp [List.take_succ_cons]

/-- C1 witness: the amended statement at the concrete tripped bucket. -/
theorem c1_global_gate_per_bucket_witness :
    (setGlobalRatelimit gateTrippedBucket 5 10).globalReset = some (5 + 10) ∧
    (∀ s2 t, acquireEntry gateTrippedBucket 5 3 ≠ .done s2 t) ∧
    (∀ s2 w b, acquireEntry gateTrippedBucket 5 3 ≠ .enqueued s2 w b) ∧
    (gateTrippedBucket.maxRatelimitTimeout = none →
      acquireEntry gateTrippedBucket 5 3 =
        .globalSleep (refreshWindow gateTrippedBucket 5) 100 3) ∧
    (∀ w rest, gateTrippedBucket.queue = w :: rest →
      0 < (refreshWindow gateTrippedBucket 5).remaining →
      (drainLoop gateTrippedBucket 5).released.head? = some w) :=
  c1_global_gate_per_bucket gateTrippedBucket 5 10 100 3 rfl (by decide)

/-! ## C9 -/

/-- C9 counterexample: two dispatch envelopes arriving with `s = 5` then
`s = 3` drive the recorded sequence from 5 down to 3 — the recorded
sequence number is not non-decreasing. -/
theorem c9_counterexample :
    (receivedMessage sessionStartPoller envSeq5).1.sequence = some 5 ∧
    (processEnvs sessionStartPoller [envSeq5, envSeq3]).sequence = some 3 ∧
    ¬ ((5 : Int) ≤ 3) := by decide

theorem receivedMessage_dispatch_sequence (p : PollerState) (e : Envelope)
    (he : dispatchEnvOk e) :
    (receivedMessage p e).1.sequence =
      match e.s with | some n => some n | none => p.sequence := by
  obtain ⟨hop, hready⟩ := he
  unfold receivedMessage
  rw [if_neg (by simp [hop])]
  by_cases ht : e.t = some "READY"
  · obtain ⟨hs, sid, url, hd⟩ := hready ht
    unfold dispatchTail
    rw [if_pos ht, hd]
    cases hes : e.s with
    | some n => rfl
    | none => rw [hes] at hs; simp at hs
  · unfold dispatchTail
    rw [if_neg ht]
    cases e.s <;> rfl

/-- C9 (amended): across dispatch envelopes of one connected session the
recorded sequence equals the last non-null `s` field seen (the code simply
assigns each incoming `s`); consequently it is non-decreasing exactly when
each inbound `s` is at least the currently recorded value, and the
processing of a single dispatch envelope never decreases it under that
hypothesis. -/
theorem c9_sequence_last_write_wins (p : PollerState) (envs : List Envelope)
    (h : ∀ e ∈ envs, dispatchEnvOk e) :
    (processEnvs p envs).sequence = specRecordedSequence p.sequence envs ∧
    (∀ e, dispatchEnvOk e →
      (∀ n m, p.sequence = some n → e.s = some m → n ≤ m) →
      seqLE p.sequence ((receivedMessage p e).1.sequence)) := by
  constructor
  · induction envs generalizing p with
    | nil => rfl
    | cons e es ih =>
        have he : dispatchEnvOk e := h e (by simp)
        have hes : ∀ x ∈ es, dispatchEnvOk x := fun x hx => h x (by simp [hx])
        show (processEnvs (receivedMessage p e).1 es).sequence = _
        rw [ih (receivedMessage p e).1 hes]
        unfold specRecordedSequence
        rw [List.foldl_cons, receivedMessage_dispatch_sequence p e he]
  · intro e he hmono
    rw [receivedMessage_dispatch_sequence p e he]
    cases hes : e.s with
    | none => cases p.sequence <;> simp [seqLE]
    | some m =>
        cases hp : p.sequence with
        | none => simp [seqLE]
        | some n => simpa [seqLE] using hmono n m hp hes

/-- C9 witness: the amended statement at a concrete poller and a one-element
well-ordered envelope list. -/
theorem c9_sequence_last_write_wins_witness :
    (processEnvs sessionStartPoller [envSeq5]).sequence =
      specRecordedSequence sessionStartPoller.sequence [envSeq5] ∧
    (∀ e, dispatchEnvOk e →
      (∀ n m, sessionStartPoller.sequence = some n → e.s = some m → n ≤ m) →
      seqLE sessionStartPoller.sequence
        ((receivedMessage sessionStartPoller e).1.sequence)) :=
  c9_sequence_last_write_wins sessionStartPoller [envSeq5]
    (by
      intro e hmem
      simp only [List.mem_singleton] at hmem
      subst hmem
      exact ⟨rfl, fun hr => absurd hr (by decide)⟩)

/-! ## C10 -/

/-- C10: the `token` property of the poller evaluates the REST handler
attribute but returns `None` for every state, so the identify and resume
payloads always carry a null token field. -/
theorem c10_token_always_none (p : PollerState) :
    DiscordWebSocketPoller.token p = none ∧
    (identifyPayload p).token = none ∧
    (resumePayload p).token = none :=
  ⟨rfl, rfl, rfl⟩

/-! ## C6 -/

/-- C6: the close-code classifier treats exactly 1000 (when the close was
explicitly requested), 4004 and 4010-4014 as non-resumable; a 1000 seen on
the socket without an explicit close request is resumable, as is every
other code; and a 4014 closure stops the supervisor loop at once, raising
the privileged-intents error with no further connect attempt. -/
theorem c6_close_code_classification :
    (∀ (c : Int) (w : Option Int), c ≠ 0 →
      (can_handle_close_code (some c) w = false ↔ c ∈ fatalCloseCodes)) ∧
    (∀ c : Int,
      (can_handle_close_code none (some c) = false ↔
        c ∈ fatalCloseCodes ∧ c ≠ 1000)) ∧
    (∀ (r0 : Bool) (rest : List ConnOutcome),
      connectLoop true r0 (.gatewayClosed 4014 :: rest) = ([r0], .raisedPrivileged)) ∧
    pollEventOnClosure none (some 4014) = .connectionClosed 4014 := by
  refine ⟨?_, ?_, ?_, rfl⟩
  · intro c w hc
    simp only [can_handle_close_code, pyOr, optMem, if_neg hc]
    by_cases hm : c ∈ fatalCloseCodes <;> simp [hm]
  · intro c
    simp only [can_handle_close_code, pyOr, optMem]
    by_cases h1000 : c = 1000
    · subst h1000; simp [fatalCloseCodes]
    · by_cases hm : c ∈ fatalCloseCodes <;>
        simp [hm, h1000, Option.some_inj]
  · intro r0 rest
    rfl

/-- C6 witness: code 4000 with no explicit request is resumable, code 1000
without an explicit close request is resumable, and a 4014 closure raises
the privileged-intents error on the spot. -/
theorem c6_close_code_classification_witness :
    (can_handle_close_code (some 4000) none = false ↔ (4000 : Int) ∈ fatalCloseCodes) ∧
    (can_handle_close_code none (some 1000) = false ↔
      (1000 : Int) ∈ fatalCloseCodes ∧ (1000 : Int) ≠ 1000) ∧
    connectLoop true false [.gatewayClosed 4014] = ([false], .raisedPrivileged) :=
  ⟨c6_close_code_classification.1 4000 none (by decide),
   c6_close_code_classification.2.1 1000,
   c6_close_code_classification.2.2.1 false []⟩

/-! ## C3 -/

/-- On `invalid_session` with `d=false` the poller clears the session but
raises `GatewayReconnectNeeded` with the default `resume=True`. -/
def afterInvalidSession : PollerState × RecvAction :=
  receivedMessage connectedPoller invalidSessionFalse

/-- C3: evaluated at the failing input.  After an explicitly requested
close with code 4000 the next attempt resumes (first conjuncts), and after
`invalid_session` with `d=false` the session and sequence are indeed
cleared — but the raised reconnect signal carries `resume=True` (the
`GatewayReconnectNeeded` default), the supervisor therefore calls
`start(resume=True)`, and the next frame sent is a RESUME frame with a
null session, not an IDENTIFY frame. -/
theorem c3_invalid_session_still_resumes :
    can_handle_close_code (some 4000) none = true ∧
    pollEventOnClosure (some 4000) none = .reconnectNeeded true ∧
    (startFrame connectedPoller true).op = opResume ∧
    (startFrame connectedPoller true).sessionId = some "sess" ∧
    afterInvalidSession.1.sequence = none ∧
    afterInvalidSession.1.sessionId = none ∧
    afterInvalidSession.1.gatewayUrl = defaultGatewayUrl ∧
    afterInvalidSession.2 = .raisedReconnect true ∧
    connectLoop true false [.reconnectNeeded true] = ([false, true], .scriptOver) ∧
    (startFrame afterInvalidSession.1 true).op = opResume ∧
    (startFrame afterInvalidSession.1 true).op ≠ opIdentify ∧
    (startFrame afterInvalidSession.1 true).sessionId = none := by decide

/-! ## C2 -/

theorem acquireEntry_noGlobal (s : RateLimiter) (now : Int) (wid : Nat)
    (hg : s.globalReset = none) :
    acquireEntry s now wid = acquirePost (refreshWindow s now) now wid := by
  simp only [acquireEntry, refreshWindow_globalReset, hg]

theorem acquirePost_pos (s : RateLimiter) (now : Int) (wid : Nat)
    (h : 0 < s.remaining) :
    acquirePost s now wid = .done { s with remaining := s.remaining - 1 } now := by
  unfold acquirePost; rw [if_pos h]

theorem acquirePost_nonpos (s : RateLimiter) (now : Int) (wid : Nat)
    (h : ¬ 0 < s.remaining) (h2 : s.throttleTask ≠ .idle) :
    acquirePost s now wid = .enqueued { s with queue := s.queue ++ [wid] } wid false := by
  simp only [acquirePost, if_neg h]
  simp [h2]

theorem update_globalReset (s : RateLimiter) (now : Int) (h : RHeaders) :
    (s.update now h).globalReset = s.globalReset := rfl

theorem update_queue (s : RateLimiter) (now : Int) (h : RHeaders) :
    (s.update now h).queue = s.queue := rfl

theorem update_throttleTask (s : RateLimiter) (now : Int) (h : RHeaders) :
    (s.update now h).throttleTask = s.throttleTask := rfl

theorem strandedInv_step (sys : BucketSys) (w : Nat) (e : SysEvent)
    (h : StrandedInv sys w) : StrandedInv (sysStep sys e) w := by
  obtain ⟨hg, ht, hq, hs, hr⟩ := h
  cases e with
  | elapse d => exact ⟨hg, ht, hq, hs, hr⟩
  | callAcquire wid =>
      have hA : acquireEntry sys.rl sys.now wid =
          acquirePost (refreshWindow sys.rl sys.now) sys.now wid :=
        acquireEntry_noGlobal _ _ _ hg
      have hRg := refreshWindow_globalReset sys.rl sys.now
      have hRq := refreshWindow_queue sys.rl sys.now
      have hRt := refreshWindow_throttleTask sys.rl sys.now
      simp only [sysStep]
      rw [hA]
      by_cases hrem : 0 < (refreshWindow sys.rl sys.now).remaining
      · rw [acquirePost_pos _ _ _ hrem]
        refine ⟨?_, ?_, ?_, hs, hr⟩
        · show (refreshWindow sys.rl sys.now).globalReset = none
          rw [hRg]; exact hg
        · show (refreshWindow sys.rl sys.now).throttleTask = .crashed
          rw [hRt]; exact ht
        · show w ∈ (refreshWindow sys.rl sys.now).queue
          rw [hRq]; exact hq
      · rw [acquirePost_nonpos _ _ _ hrem
          (by rw [hRt, ht]; intro hcon; cases hcon)]
        refine ⟨?_, ?_, ?_, hs, hr⟩
        · show (refreshWindow sys.rl sys.now).globalReset = none
          rw [hRg]; exact hg
        · show (refreshWindow sys.rl sys.now).throttleTask = .crashed
          rw [hRt]; exact ht
        · show w ∈ (refreshWindow sys.rl sys.now).queue ++ [wid]
          rw [hRq]
          exact List.mem_append_left _ hq
  | resumeGlobal wid =>
      simp only [sysStep]
      rw [hs]
      exact ⟨hg, ht, hq, hs, hr⟩
  | drainRun =>
      simp only [sysStep]
      rw [ht]
      exact ⟨hg, ht, hq, hs, hr⟩
  | updateHeaders remaining limit resetAfter =>
      refine ⟨?_, ?_, ?_, hs, hr⟩
      · show (sys.rl.update sys.now _).globalReset = none
        rw [update_globalReset]; exact hg
      · show (sys.rl.update sys.now _).throttleTask = .crashed
        rw [update_throttleTask]; exact ht
      · show w ∈ (sys.rl.update sys.now _).queue
        rw [update_queue]; exact hq

theorem strandedInv_run (sys : BucketSys) (w : Nat) (h : StrandedInv sys w) :
    ∀ evs : List SysEvent, StrandedInv (runSys sys evs) w := by
  intro evs
  induction evs generalizing sys with
  | nil => exact h
  | cons e es ih => exact ih _ (strandedInv_step sys w e h)

/-- C2 evaluated at the failing input: the ceiling failure fails the queued
waiter 0 with `RateLimited(90)` and raises the same error (the true part
of the claim), but it leaves the drain-task handle pointing at the crashed
task; a caller that enqueues afterwards (waiter 1) starts no drain task
(`startedDrain = false`) and no sequence of further events — time passing,
new acquires, drain scheduling, header updates — can ever complete its
future: it is stranded forever. -/
theorem c2_ceiling_failure_strands_later_callers :
    (drainLoop ceilingBucket 10).failed = [0] ∧
    (drainLoop ceilingBucket 10).status = .crashed 90 ∧
    (drainLoop ceilingBucket 10).rl = ceilingBucketAfter ∧
    acquireEntry ceilingBucketAfter 11 1 = .enqueued ceilingBucketStranded 1 false ∧
    strandedForever strandedSys 1 := by
  refine ⟨by decide, by decide, by decide, by decide, ?_⟩
  intro evs
  have hinv : StrandedInv strandedSys 1 := by
    refine ⟨rfl, rfl, by decide, rfl, ?_⟩
    intro b hb
    simp [strandedSys] at hb
  obtain ⟨-, -, hq, -, hr⟩ := strandedInv_run strandedSys 1 hinv evs
  exact ⟨hq, hr⟩

/-! ## C8 -/

theorem lookupA_insertA_self {κ α : Type} [DecidableEq κ]
    (l : List (κ × α)) (k : κ) (v : α) :
    lookupA (insertA l k v) k = some v := by
  induction l with
  | nil => simp [insertA, lookupA]
  | cons p rest ih =>
      by_cases h : p.1 = k
      · simp [insertA, h, lookupA]
      · simp [insertA, h, lookupA, ih]

/-- C8: re-keying is idempotent and monotonic — a response carrying the
hash already associated with the route leaves the maps untouched,
`_get_bucket` on a known key allocates nothing, a known route hash never
becomes unknown again (so the provisional `routeKey:majorParams` key is
never used again), and concretely, running the same hash-bearing request
twice from an empty handler leaves the mapping and the allocation count of
the first run unchanged. -/
theorem c8_rekeying_idempotent_monotonic :
    (∀ (st : HandlerState) (routeKey major key : String) (rlId : Nat) (h : String),
      discoverBucketHash st routeKey major key (some h) rlId (some h) = st) ∧
    (∀ (st : HandlerState) (route : Route) (h : String),
      lookupA st.bucketHashes route.key = some h →
      computeKey st route = (some h, h ++ ":" ++ route.majorParams)) ∧
    (∀ (st : HandlerState) (key : String) (now : Int) (b : Nat),
      lookupA st.buckets key = some b → getBucket st key now = (st, b)) ∧
    (∀ (st : HandlerState) (routeKey major key : String)
      (bh : Option String) (rlId : Nat) (rh : Option String),
      (lookupA st.bucketHashes routeKey).isSome = true →
      (lookupA (discoverBucketHash st routeKey major key bh rlId rh).bucketHashes
        routeKey).isSome = true) ∧
    (secondRun.state.bucketHashes = firstRun.state.bucketHashes ∧
      secondRun.state.buckets = firstRun.state.buckets ∧
      secondRun.state.nextBucket = firstRun.state.nextBucket) := by
  refine ⟨?_, ?_, ?_, ?_, by decide, by decide, by decide⟩
  · intro st routeKey major key rlId h
    simp [discoverBucketHash]
  · intro st route h hh
    simp [computeKey, hh]
  · intro st key now b hb
    simp [getBucket, hb]
  · intro st routeKey major key bh rlId rh hsome
    unfold discoverBucketHash
    cases rh with
    | none => exact hsome
    | some h =>
        dsimp only
        by_cases hb : bh = some h
        · rw [if_pos hb]; exact hsome
        · rw [if_neg hb]
          cases bh with
          | some x => simp [lookupA_insertA_self]
          | none =>
              cases hl : lookupA st.bucketHashes routeKey with
              | none => rw [hl] at hsome; cases hsome
              | some y => rw [hl]; rfl

/-! ## C5 and C7 -/

theorem discover_maxRl (st : HandlerState) (rk mj k : String) (bh : Option String)
    (rlId : Nat) (rh : Option String) :
    (discoverBucketHash st rk mj k bh rlId rh).maxRl = st.maxRl := by
  unfold discoverBucketHash
  cases rh with
  | none => rfl
  | some h =>
      dsimp only
      by_cases hb : bh = some h
      · rw [if_pos hb]
      · rw [if_neg hb]
        cases bh with
        | some x => rfl
        | none => cases lookupA st.bucketHashes rk <;> rfl

theorem updateBucketState_maxRl (st : HandlerState) (rlId : Nat) (now : Int)
    (h : RHeaders) : (updateBucketState st rlId now h).maxRl = st.maxRl := by
  unfold updateBucketState
  cases lookupA st.bucketStates rlId <;> rfl

theorem acquire_fresh (maxRl : Option Int) (now : Int) :
    acquireEntry (freshRateLimiter maxRl now) now 0 =
      .done { freshRateLimiter maxRl now with remaining := 4 } now := by
  have h1 : refreshWindow (freshRateLimiter maxRl now) now = freshRateLimiter maxRl now := by
    unfold refreshWindow freshRateLimiter
    rw [if_neg (by omega : ¬ ((now + 1 : Int) ≤ now))]
  simp only [acquireEntry, h1]
  show acquirePost (freshRateLimiter maxRl now) now 0 = _
  unfold acquirePost freshRateLimiter
  rw [if_pos (by omega : (0 : Int) < 5)]
  norm_num

/-- `RESTHandler.request` entered on a route whose bucket key is unknown:
a fresh `RateLimiter(5, 1)` is allocated, the global event is set, the
acquire succeeds immediately, and the attempt loop starts. -/
theorem requestRun_fresh (st : HandlerState) (now : Int) (route : Route)
    (script : List Response)
    (hglob : st.globalEvent = true)
    (hfresh : lookupA st.buckets (computeKey st route).2 = none) :
    requestRun st now route script =
      attemptLoop route.key route.majorParams (computeKey st route).2
        (computeKey st route).1 st.nextBucket
        (freshAllocState st (computeKey st route).2 now)
        now 5 0 script [] 0 none := by
  simp only [requestRun, getBucket, hfresh, freshAllocState]
  rw [if_neg (by simp [hglob])]
  rw [lookupA_insertA_self]
  simp only [Option.getD_some]
  rw [acquire_fresh]

theorem attemptLoop_429_ceiling (rk mj k : String) (bh : Option String) (rlId : Nat)
    (st : HandlerState) (now : Int) (fuel attempt : Nat) (hfuel : fuel ≠ 0)
    (hdrs : RHeaders) (ra : Int) (isG : Bool) (tag : Nat) (rest : List Response)
    (sleeps : List Int) (used : Nat) (last : Option Response) (m : Int)
    (hm : st.maxRl = some m) (hm0 : m ≠ 0) (hra : m < ra) (hvia : hdrs.via = true) :
    attemptLoop rk mj k bh rlId st now fuel attempt
        ({ status := 429, headers := hdrs, body := .json ra isG tag } :: rest)
        sleeps used last =
      ⟨.fail (.rateLimited ra),
        discoverBucketHash st rk mj k bh rlId hdrs.bucket, sleeps, used + 1⟩ := by
  simp [attemptLoop, hfuel, hvia, maxRlExceeded, discover_maxRl, hm, hm0, hra]

theorem attemptLoop_2xx (rk mj k : String) (bh : Option String) (rlId : Nat)
    (st : HandlerState) (now : Int) (fuel attempt : Nat) (hfuel : fuel ≠ 0)
    (r : Response) (rest : List Response) (sleeps : List Int) (used : Nat)
    (last : Option Response) (hst1 : 200 ≤ r.status) (hst2 : r.status < 300) :
    attemptLoop rk mj k bh rlId st now fuel attempt (r :: rest) sleeps used last =
      ⟨.ok r.body,
        if r.headers.remaining.isSome ∧ r.status ≠ 429 then
          updateBucketState (discoverBucketHash st rk mj k bh rlId r.headers.bucket)
            rlId now r.headers
        else discoverBucketHash st rk mj k bh rlId r.headers.bucket,
        sleeps, used + 1⟩ := by
  simp only [attemptLoop]
  rw [if_neg hfuel]
  rw [if_pos ⟨hst1, hst2⟩]

theorem attemptLoop_transient (rk mj k : String) (bh : Option String) (rlId : Nat)
    (st : HandlerState) (now : Int) (fuel attempt : Nat) (hfuel : fuel ≠ 0)
    (r : Response) (rest : List Response) (sleeps : List Int) (used : Nat)
    (last : Option Response) (hs : r.status = 500) :
    attemptLoop rk mj k bh rlId st now fuel attempt (r :: rest) sleeps used last =
      attemptLoop rk mj k bh rlId
        (if r.headers.remaining.isSome = true then
          updateBucketState (discoverBucketHash st rk mj k bh rlId r.headers.bucket)
            rlId now r.headers
        else discoverBucketHash st rk mj k bh rlId r.headers.bucket)
        (now + (1 + (attempt : Int) * 2)) (fuel - 1) (attempt + 1) rest
        (sleeps ++ [1 + (attempt : Int) * 2]) (used + 1) (some r) := by
  simp [attemptLoop, hfuel, hs, transientStatuses]

/-- C5: a 429 whose `retry_after` exceeds the configured
`maxRatelimitTimeout` makes the request fail at once with
`RateLimited(retry_after)`, with no sleep and no retry (one transport
response consumed). -/
theorem c5_429_ceiling_short_circuit (st : HandlerState) (now : Int) (route : Route)
    (m ra : Int) (isG : Bool) (tag : Nat) (hdrs : RHeaders) (rest : List Response)
    (hm : st.maxRl = some m) (hm0 : m ≠ 0) (hra : m < ra)
    (hglob : st.globalEvent = true)
    (hfresh : lookupA st.buckets (computeKey st route).2 = none)
    (hvia : hdrs.via = true) :
    (requestRun st now route
        ({ status := 429, headers := hdrs, body := .json ra isG tag } :: rest)).result
        = .fail (.rateLimited ra) ∧
    (requestRun st now route
        ({ status := 429, headers := hdrs, body := .json ra isG tag } :: rest)).sleeps
        = [] ∧
    (requestRun st now route
        ({ status := 429, headers := hdrs, body := .json ra isG tag } :: rest)).used
        = 1 := by
  rw [requestRun_fresh st now route _ hglob hfresh,
      attemptLoop_429_ceiling route.key route.majorParams (computeKey st route).2
        (computeKey st route).1 st.nextBucket
        (freshAllocState st (computeKey st route).2 now) now 5 0 (by decide)
        hdrs ra isG tag rest [] 0 none m
        (by rw [show (freshAllocState st (computeKey st route).2 now).maxRl = st.maxRl from rfl]; exact hm)
        hm0 hra hvia]
  exact ⟨rfl, rfl, rfl⟩

/-- C5 witness: `maxRatelimitTimeout = 5` and a 429 reporting
`retry_after = 30` fail immediately: no sleep, a single response
consumed. -/
theorem c5_429_ceiling_short_circuit_witness :
    (requestRun ceilingHandler 0 exampleRoute
        ({ status := 429, headers := viaOnlyHeaders, body := .json 30 false 0 } :: [])).result
        = .fail (.rateLimited 30) ∧
    (requestRun ceilingHandler 0 exampleRoute
        ({ status := 429, headers := viaOnlyHeaders, body := .json 30 false 0 } :: [])).sleeps
        = [] ∧
    (requestRun ceilingHandler 0 exampleRoute
        ({ status := 429, headers := viaOnlyHeaders, body := .json 30 false 0 } :: [])).used
        = 1 :=
  c5_429_ceiling_short_circuit ceilingHandler 0 exampleRoute 5 30 false 0
    viaOnlyHeaders [] rfl (by decide) (by decide) rfl (by decide) rfl

theorem attemptLoop_transient_first (rk mj k : String) (bh : Option String)
    (rlId : Nat) (st : HandlerState) (now : Int) (hdrs : RHeaders) (b : Body)
    (rest : List Response) :
    attemptLoop rk mj k bh rlId st now 5 0
        ({ status := 500, headers := hdrs, body := b } :: rest) [] 0 none =
      attemptLoop rk mj k bh rlId
        (if hdrs.remaining.isSome = true then
          updateBucketState (discoverBucketHash st rk mj k bh rlId hdrs.bucket)
            rlId now hdrs
        else discoverBucketHash st rk mj k bh rlId hdrs.bucket)
        (now + 1) 4 1 rest [1] 1 (some { status := 500, headers := hdrs, body := b }) := by
  norm_num [attemptLoop, transientStatuses]

theorem attemptLoop_200_second (rk mj k : String) (bh : Option String)
    (rlId : Nat) (st : HandlerState) (now : Int) (hdrs : RHeaders) (b : Body)
    (rest : List Response) (lastR : Option Response) :
    attemptLoop rk mj k bh rlId st now 4 1
        ({ status := 200, headers := hdrs, body := b } :: rest) [1] 1 lastR =
      ⟨.ok b,
        if hdrs.remaining.isSome = true then
          updateBucketState (discoverBucketHash st rk mj k bh rlId hdrs.bucket)
            rlId now hdrs
        else discoverBucketHash st rk mj k bh rlId hdrs.bucket,
        [1], 2⟩ := by
  norm_num [attemptLoop]

/-- C7: a 500 on the first attempt followed by a 200 on the second makes
the request sleep exactly the first transient backoff step
(`1 + attempt*2` with `attempt = 0`, i.e. 1 second), retry exactly once
(two transport responses consumed), and return the decoded body of the
200 response. -/
theorem c7_transient_retry_then_success (st : HandlerState) (now : Int)
    (route : Route) (hdrs1 : RHeaders) (b1 : Body) (hdrs2 : RHeaders) (b2 : Body)
    (rest : List Response)
    (hglob : st.globalEvent = true)
    (hfresh : lookupA st.buckets (computeKey st route).2 = none) :
    (requestRun st now route
        ({ status := 500, headers := hdrs1, body := b1 } ::
          { status := 200, headers := hdrs2, body := b2 } :: rest)).result = .ok b2 ∧
    (requestRun st now route
        ({ status := 500, headers := hdrs1, body := b1 } ::
          { status := 200, headers := hdrs2, body := b2 } :: rest)).sleeps = [1] ∧
    (requestRun st now route
        ({ status := 500, headers := hdrs1, body := b1 } ::
          { status := 200, headers := hdrs2, body := b2 } :: rest)).used = 2 := by
  rw [requestRun_fresh st now route _ hglob hfresh, attemptLoop_transient_first,
      attemptLoop_200_second]
  exact ⟨rfl, rfl, rfl⟩

/-- C7 witness: the scenario run concretely from an empty handler. -/
theorem c7_transient_retry_then_success_witness :
    (requestRun emptyHandler 0 exampleRoute
        ({ status := 500, headers := viaOnlyHeaders, body := .text "oops" } ::
          { status := 200, headers := viaOnlyHeaders, body := .json 1 false 7 } :: [])).result
        = .ok (.json 1 false 7) ∧
    (requestRun emptyHandler 0 exampleRoute
        ({ status := 500, headers := viaOnlyHeaders, body := .text "oops" } ::
          { status := 200, headers := viaOnlyHeaders, body := .json 1 false 7 } :: [])).sleeps
        = [1] ∧
    (requestRun emptyHandler 0 exampleRoute
        ({ status := 500, headers := viaOnlyHeaders, body := .text "oops" } ::
          { status := 200, headers := viaOnlyHeaders, body := .json 1 false 7 } :: [])).used
        = 2 :=
  c7_transient_retry_then_success emptyHandler 0 exampleRoute viaOnlyHeaders
    (.text "oops") viaOnlyHeaders (.json 1 false 7) [] rfl (by decide)
